import Mathlib

/-!
Shallow embedding of the Real-Time AI Assistant (RAG + LangChain) repository.

External effects (LLM invocations, web search, file writes) are modelled by
explicit outcome parameters: a chain invocation either returns a string
(`Except.ok s`) or raises an exception whose message is `e` (`Except.error e`).
Python string slicing `s[:n]` is by code points, embedded as `pyTake`;
Python `l[-n:]` is `keepLast n l`; Python `sep.join(l)` is `joinSep sep l`;
Python `.strip()` and `.upper()` are embedded as `pyStrip` and `pyUpper`
over the string's code points.
-/

namespace RagAssistant

/-- Outcome of one external invocation: the returned string, or the message of
the exception it raised. -/
abbrev CallResult := Except String String

/-- Python `l[-n:]`: the last `min n l.length` elements of `l`. -/
def keepLast (n : Nat) (l : List α) : List α := l.drop (l.length - n)

/-- Python `s[:n]`: the first `min n s.length` code points of `s`. -/
def pyTake (s : String) (n : Nat) : String := String.mk (s.data.take n)

/-- Python `s.strip()`: drop leading and trailing whitespace. -/
def pyStrip (s : String) : String :=
  String.mk (((s.data.dropWhile Char.isWhitespace).reverse.dropWhile
    Char.isWhitespace).reverse)

/-- Python `s.upper()`: uppercase every character. -/
def pyUpper (s : String) : String := String.mk (s.data.map Char.toUpper)

/-- Python `sep.join(l)`. -/
def joinSep (sep : String) : List String → String
  | [] => ""
  | [x] => x
  | x :: y :: xs => x ++ sep ++ joinSep sep (y :: xs)

/-! ### `src/dual_model_assistant.py`, class `DualModelRAGAssistant` -/

namespace DualModel

/-- `search_with_error_handling` (dual_model_assistant.py lines 78-84):
returns the search result, or on exception the fallback string built from
`str(e)`. -/
def search_with_error_handling (outcome : CallResult) : String :=
  match outcome with
  | Except.ok results => results
  | Except.error e => "Search unavailable: " ++ e ++ ". Using model knowledge only."

/-- The four recognized coordinator labels, in source order
(dual_model_assistant.py line 96). -/
def strategyLabels : List String := ["QWEN", "GPT", "BOTH", "QWEN_THEN_GPT"]

/-- `determine_model_strategy` (lines 86-102): normalize the coordinator
chain's output with `.strip().upper()`; fall back to `"GPT"` when the
normalized output is unrecognized or the invocation raised. -/
def determine_model_strategy (outcome : CallResult) : String :=
  match outcome with
  | Except.ok raw =>
      let strategy := pyUpper (pyStrip raw)
      if strategy ∉ strategyLabels then "GPT" else strategy
  | Except.error _ => "GPT"

/-- `get_qwen_response` (lines 104-110). -/
def get_qwen_response (outcome : CallResult) : String :=
  match outcome with
  | Except.ok s => s
  | Except.error e => "Qwen model error: " ++ e

/-- `get_gpt_response` (lines 112-118). -/
def get_gpt_response (outcome : CallResult) : String :=
  match outcome with
  | Except.ok s => s
  | Except.error e => "GPT model error: " ++ e

/-- `combine_responses` (lines 120-132): the combination chain's output, or on
exception the literal concatenation fallback. -/
def combine_responses (question context qwen_response gpt_response : String)
    (outcome : CallResult) : String :=
  match outcome with
  | Except.ok s => s
  | Except.error _ =>
      "**Combined Response:**\n\n**Qwen3-VL:** " ++ qwen_response ++
        "\n\n**GPT-OSS:** " ++ gpt_response

/-- The external world as seen by one `process_question` call: the search
outcome, the coordinator outcome, the per-(question, context) outcomes of the
qwen and gpt chains, and the combination chain's outcome. -/
structure ModelOracle where
  searchOutcome : CallResult
  coordinatorOutcome : CallResult
  qwenOutcome : String → String → CallResult
  gptOutcome : String → String → CallResult
  combinerOutcome : CallResult

/-- One qwen-chain or gpt-chain invocation, recording the question and the
context it received. -/
inductive ModelCall where
  | qwenCall (question context : String)
  | gptCall (question context : String)
deriving DecidableEq, Repr

/-- `process_question` (lines 134-170). Returns the string the function
returns — `none` when no branch of the `if`/`elif` chain binds `response`
and `model_info` (the Python `NameError` case) — paired with the trace of
qwen-chain and gpt-chain invocations made, in order. -/
def process_question (o : ModelOracle) (question : String) :
    Option String × List ModelCall :=
  let context := search_with_error_handling o.searchOutcome
  let strategy := determine_model_strategy o.coordinatorOutcome
  if strategy = "QWEN" then
    (some ("**Model Used:** Qwen3-VL" ++ "\n\n" ++
        get_qwen_response (o.qwenOutcome question context)),
      [ModelCall.qwenCall question context])
  else if strategy = "GPT" then
    (some ("**Model Used:** GPT-OSS" ++ "\n\n" ++
        get_gpt_response (o.gptOutcome question context)),
      [ModelCall.gptCall question context])
  else if strategy = "BOTH" then
    let qwen_response := get_qwen_response (o.qwenOutcome question context)
    let gpt_response := get_gpt_response (o.gptOutcome question context)
    let response :=
      combine_responses question context qwen_response gpt_response o.combinerOutcome
    (some ("**Models Used:** Qwen3-VL + GPT-OSS (Combined)" ++ "\n\n" ++ response),
      [ModelCall.qwenCall question context, ModelCall.gptCall question context])
  else if strategy = "QWEN_THEN_GPT" then
    let qwen_response := get_qwen_response (o.qwenOutcome question context)
    let refined_context :=
      "Previous analysis: " ++ qwen_response ++ "\n\nOriginal context: " ++ context
    (some ("**Models Used:** Qwen3-VL → GPT-OSS (Sequential)" ++ "\n\n" ++
        get_gpt_response (o.gptOutcome question refined_context)),
      [ModelCall.qwenCall question context, ModelCall.gptCall question refined_context])
  else (none, [])

/-- The two entries `add_to_history` appends (lines 175-178): the timestamped
question and the timestamped answer cut to `answer[:300]` with `"..."`
appended. -/
def historyEntries (timestamp question answer : String) : List String :=
  ["[" ++ timestamp ++ "] " ++ question,
   "[" ++ timestamp ++ "] " ++ (pyTake answer 300 ++ "...")]

/-- `add_to_history` (lines 172-181): extend the history by the two entries,
then keep only the last 20 entries when the length exceeds 20. -/
def add_to_history (history : List String) (timestamp question answer : String) :
    List String :=
  let extended := history ++ historyEntries timestamp question answer
  if extended.length > 20 then extended.drop (extended.length - 20) else extended

/-- The session state the dual-model loop mutates. -/
structure AssistantState where
  conversation_history : List String
deriving DecidableEq, Repr

/-- The dictionary `save_conversation` serializes (lines 185-189). -/
structure ConversationData where
  timestamp : String
  models_used : List String
  history : List String
deriving DecidableEq, Repr

/-- Outcome of the attempted file write in `save_conversation`. -/
inductive WriteOutcome where
  | success
  | failure (e : String)
deriving DecidableEq, Repr

/-- `save_conversation` (lines 183-196): builds the conversation data from the
current state and attempts the write; on failure only an error message is
printed. Returns the state after the call, the data written to disk (`none`
when the write raised), and the printed message. -/
def save_conversation (state : AssistantState) (now : String) (filename : String)
    (outcome : WriteOutcome) : AssistantState × Option ConversationData × String :=
  let conversation_data : ConversationData :=
    { timestamp := now
      models_used := ["qwen3-vl:235b-cloud", "gpt-oss:120b-cloud"]
      history := state.conversation_history }
  match outcome with
  | WriteOutcome.success =>
      (state, some conversation_data, "💾 Conversation saved to " ++ filename)
  | WriteOutcome.failure e =>
      (state, none, "❌ Could not save conversation: " ++ e)

end DualModel

/-! ### `src/advanced_example.py`, class `AdvancedRAGAssistant` -/

namespace Advanced

/-- `search_with_error_handling` (advanced_example.py lines 53-59). -/
def search_with_error_handling (outcome : CallResult) : String :=
  match outcome with
  | Except.ok results => results
  | Except.error e => "Search unavailable: " ++ e ++ ". Using general knowledge only."

/-- The body of the `for i in range(0, len(recent_history), 2)` loop of
`format_history` (lines 70-74): pair consecutive entries into
`"Q: <q>\nA: <a[:200]>..."` blocks; a trailing entry with no partner (the
`i + 1 < len` guard failing) is dropped. -/
def formatPairs : List String → List String
  | q :: a :: rest =>
      ("Q: " ++ q ++ "\nA: " ++ pyTake a 200 ++ "...") :: formatPairs rest
  | _ => []

/-- `format_history` (lines 61-76): `"No previous conversation."` on an empty
history, otherwise the blocks built from the last 6 entries joined by
`"\n\n"`. -/
def format_history (conversation_history : List String) : String :=
  if conversation_history = [] then "No previous conversation."
  else
    let recent_history := keepLast 6 conversation_history
    joinSep "\n\n" (formatPairs recent_history)

/-- The two entries the advanced `add_to_history` appends (lines 81-84): the
timestamped question and the timestamped answer, stored unmodified. -/
def historyEntries (timestamp question answer : String) : List String :=
  ["[" ++ timestamp ++ "] " ++ question,
   "[" ++ timestamp ++ "] " ++ answer]

/-- `add_to_history` (lines 78-88): extend by the two entries, then keep only
the last 20 entries when the length exceeds 20. -/
def add_to_history (history : List String) (timestamp question answer : String) :
    List String :=
  let extended := history ++ historyEntries timestamp question answer
  if extended.length > 20 then extended.drop (extended.length - 20) else extended

/-- The dictionary the advanced `save_conversation` serializes (lines 92-95):
no `models_used` field in this variant. -/
structure ConversationData where
  timestamp : String
  history : List String
deriving DecidableEq, Repr

/-- The advanced `save_conversation` (lines 90-102), modelled like the
dual-model one. -/
def save_conversation (history : List String) (now : String) (filename : String)
    (outcome : DualModel.WriteOutcome) :
    List String × Option ConversationData × String :=
  let conversation_data : ConversationData :=
    { timestamp := now, history := history }
  match outcome with
  | DualModel.WriteOutcome.success =>
      (history, some conversation_data, "💾 Conversation saved to " ++ filename)
  | DualModel.WriteOutcome.failure e =>
      (history, none, "❌ Could not save conversation: " ++ e)

/-- The conversation histories reachable by the advanced interactive loop
(lines 104-146): the initial empty history, the `clear` command, and
`add_to_history` after an answered question. -/
inductive Reachable : List String → Prop where
  | init : Reachable []
  | clear (h : List String) : Reachable h → Reachable []
  | record (h : List String) (t q a : String) :
      Reachable h → Reachable (add_to_history h t q a)

end Advanced

/-! ### Replay of history operations and pair views -/

/-- One recorded exchange: the timestamp and the question/answer pair passed
to `add_to_history`. -/
structure Exchange where
  timestamp : String
  question : String
  answer : String

namespace DualModel

/-- The dual-model history after replaying `ops` through `add_to_history`,
starting from the empty history of `__init__`. -/
def run_history (ops : List Exchange) : List String :=
  ops.foldl (fun h op => add_to_history h op.timestamp op.question op.answer) []

/-- The uncapped log of every entry the replay of `ops` ever appends. -/
def full_log (ops : List Exchange) : List String :=
  ops.foldl (fun l op => l ++ historyEntries op.timestamp op.question op.answer) []

end DualModel

namespace Advanced

/-- The advanced-variant history after replaying `ops` through
`add_to_history`, starting from the empty history of `__init__`. -/
def run_history (ops : List Exchange) : List String :=
  ops.foldl (fun h op => add_to_history h op.timestamp op.question op.answer) []

/-- The uncapped log of every entry the replay of `ops` ever appends. -/
def full_log (ops : List Exchange) : List String :=
  ops.foldl (fun l op => l ++ historyEntries op.timestamp op.question op.answer) []

/-- The flat entry list corresponding to a list of stored
(question entry, answer entry) pairs. -/
def flattenPairs : List (String × String) → List String
  | [] => []
  | p :: ps => p.1 :: p.2 :: flattenPairs ps

end Advanced

/-- A 250-character answer, used to exhibit record-time storage behaviour. -/
def longAnswer : String := String.mk (List.replicate 250 'a')

/-! ### Helper lemmas -/

lemma keepLast_append_keepLast (n : Nat) (l e : List α) :
    keepLast n (keepLast n l ++ e) = keepLast n (l ++ e) := by
  unfold keepLast
  rcases le_or_lt l.length n with h | h
  · rw [Nat.sub_eq_zero_of_le h, List.drop_zero]
  · have hk : l.length - n ≤ l.length := Nat.sub_le _ _
    rw [← List.drop_append_of_le_length hk, List.drop_drop]
    congr 1
    simp [List.length_drop, List.length_append]
    omega

lemma keepLast_length_le (n : Nat) (l : List α) : (keepLast n l).length ≤ n := by
  simp [keepLast]
  omega

lemma keepLast_of_length_le {n : Nat} {l : List α} (h : l.length ≤ n) :
    keepLast n l = l := by
  simp [keepLast, Nat.sub_eq_zero_of_le h]

/-- The coordinator's result is always one of the four recognized labels. -/
lemma determine_mem_strategyLabels (outcome : CallResult) :
    DualModel.determine_model_strategy outcome ∈ DualModel.strategyLabels := by
  cases outcome with
  | error e => simp [DualModel.determine_model_strategy, DualModel.strategyLabels]
  | ok raw =>
    simp only [DualModel.determine_model_strategy]
    split
    · simp [DualModel.strategyLabels]
    · next h => exact not_not.mp h

/-- The dual-model `add_to_history` is append-then-keep-last-20. -/
lemma dual_add_eq_keepLast (h : List String) (t q a : String) :
    DualModel.add_to_history h t q a =
      keepLast 20 (h ++ DualModel.historyEntries t q a) := by
  simp only [DualModel.add_to_history]
  split
  · rfl
  · next hle =>
    exact (keepLast_of_length_le (Nat.le_of_not_lt hle)).symm

/-- The advanced `add_to_history` is append-then-keep-last-20. -/
lemma adv_add_eq_keepLast (h : List String) (t q a : String) :
    Advanced.add_to_history h t q a =
      keepLast 20 (h ++ Advanced.historyEntries t q a) := by
  simp only [Advanced.add_to_history]
  split
  · rfl
  · next hle =>
    exact (keepLast_of_length_le (Nat.le_of_not_lt hle)).symm

/-- Folding append-then-keep-last-20 equals keep-last-20 of the full log. -/
lemma foldl_keepLast_eq {σ : Type} (ent : σ → List String) (ops : List σ) :
    ops.foldl (fun h op => keepLast 20 (h ++ ent op)) []
      = keepLast 20 (ops.foldl (fun l op => l ++ ent op) []) := by
  induction ops using List.reverseRecOn with
  | nil => rfl
  | append_singleton l op ih =>
    rw [List.foldl_append, List.foldl_append]
    simp only [List.foldl_cons, List.foldl_nil]
    rw [ih, keepLast_append_keepLast]

lemma dual_run_history_eq (ops : List Exchange) :
    DualModel.run_history ops = keepLast 20 (DualModel.full_log ops) := by
  unfold DualModel.run_history DualModel.full_log
  calc
    List.foldl (fun h op =>
        DualModel.add_to_history h op.timestamp op.question op.answer) [] ops
      = List.foldl (fun h op =>
          keepLast 20 (h ++
            DualModel.historyEntries op.timestamp op.question op.answer)) [] ops :=
        List.foldl_ext _ _ []
          (fun h op _ => dual_add_eq_keepLast h op.timestamp op.question op.answer)
    _ = keepLast 20 (List.foldl (fun l op =>
          l ++ DualModel.historyEntries op.timestamp op.question op.answer) [] ops) :=
        foldl_keepLast_eq _ ops

lemma adv_run_history_eq (ops : List Exchange) :
    Advanced.run_history ops = keepLast 20 (Advanced.full_log ops) := by
  unfold Advanced.run_history Advanced.full_log
  calc
    List.foldl (fun h op =>
        Advanced.add_to_history h op.timestamp op.question op.answer) [] ops
      = List.foldl (fun h op =>
          keepLast 20 (h ++
            Advanced.historyEntries op.timestamp op.question op.answer)) [] ops :=
        List.foldl_ext _ _ []
          (fun h op _ => adv_add_eq_keepLast h op.timestamp op.question op.answer)
    _ = keepLast 20 (List.foldl (fun l op =>
          l ++ Advanced.historyEntries op.timestamp op.question op.answer) [] ops) :=
        foldl_keepLast_eq _ ops

lemma drop_flattenPairs (k : Nat) (ps : List (String × String)) :
    (Advanced.flattenPairs ps).drop (2 * k) = Advanced.flattenPairs (ps.drop k) := by
  induction ps generalizing k with
  | nil => simp [Advanced.flattenPairs]
  | cons p ps ih =>
    cases k with
    | zero => simp
    | succ k =>
      have h2 : 2 * (k + 1) = (2 * k) + 1 + 1 := by omega
      simp only [Advanced.flattenPairs, h2, List.drop_succ_cons]
      exact ih k

lemma length_flattenPairs (ps : List (String × String)) :
    (Advanced.flattenPairs ps).length = 2 * ps.length := by
  induction ps with
  | nil => rfl
  | cons p ps ih =>
    simp [Advanced.flattenPairs, ih]
    omega

/-- Keeping the last `2 * m` flat entries keeps the last `m` pairs. -/
lemma keepLast_flattenPairs (m : Nat) (ps : List (String × String)) :
    keepLast (2 * m) (Advanced.flattenPairs ps)
      = Advanced.flattenPairs (keepLast m ps) := by
  unfold keepLast
  rw [length_flattenPairs]
  have h2 : 2 * ps.length - 2 * m = 2 * (ps.length - m) := by omega
  rw [h2, drop_flattenPairs]

lemma flattenPairs_append_pair (ps : List (String × String)) (p : String × String) :
    Advanced.flattenPairs (ps ++ [p]) = Advanced.flattenPairs ps ++ [p.1, p.2] := by
  induction ps with
  | nil => rfl
  | cons q ps ih => simp [Advanced.flattenPairs, ih]

lemma formatPairs_flattenPairs (ps : List (String × String)) :
    Advanced.formatPairs (Advanced.flattenPairs ps) =
      ps.map (fun p => "Q: " ++ p.1 ++ "\nA: " ++ pyTake p.2 200 ++ "...") := by
  induction ps with
  | nil => rfl
  | cons p ps ih => simp [Advanced.flattenPairs, Advanced.formatPairs, ih]

/-- Every reachable advanced-variant history is a flat list of stored
question/answer entry pairs. -/
lemma reachable_flattenPairs {h : List String} (hr : Advanced.Reachable h) :
    ∃ ps, h = Advanced.flattenPairs ps := by
  induction hr with
  | init => exact ⟨[], rfl⟩
  | clear h _ _ => exact ⟨[], rfl⟩
  | record h t q a _ ih =>
    obtain ⟨ps, rfl⟩ := ih
    refine ⟨keepLast 10 (ps ++ [("[" ++ t ++ "] " ++ q, "[" ++ t ++ "] " ++ a)]), ?_⟩
    rw [adv_add_eq_keepLast,
      show Advanced.flattenPairs ps ++ Advanced.historyEntries t q a
          = Advanced.flattenPairs (ps ++ [("[" ++ t ++ "] " ++ q, "[" ++ t ++ "] " ++ a)])
        from (flattenPairs_append_pair ps
          ("[" ++ t ++ "] " ++ q, "[" ++ t ++ "] " ++ a)).symm,
      show (20 : Nat) = 2 * 10 from rfl, keepLast_flattenPairs]

/-- No string of the form `"Q: " ++ s` is the empty-history sentinel. -/
lemma Q_block_ne (s : String) : "Q: " ++ s ≠ "No previous conversation." := by
  intro hEq
  have h2 := congrArg String.data hEq
  rw [String.data_append] at h2
  simp at h2

/-- The rendered non-sentinel output of `format_history` never equals the
sentinel, whatever entry list the blocks are built from. -/
lemma joinSep_formatPairs_ne (l : List String) :
    joinSep "\n\n" (Advanced.formatPairs l) ≠ "No previous conversation." := by
  match l with
  | [] => decide
  | [q] =>
    simp only [Advanced.formatPairs, joinSep]
    decide
  | q :: a :: rest =>
    cases hfp : Advanced.formatPairs rest with
    | nil =>
      simp only [Advanced.formatPairs, hfp, joinSep, String.append_assoc]
      exact Q_block_ne _
    | cons b bs =>
      simp only [Advanced.formatPairs, hfp, joinSep, String.append_assoc]
      exact Q_block_ne _

/-! ### Claims -/

/-- Claim C1: `determine_model_strategy` always returns one of
`"QWEN"`, `"GPT"`, `"BOTH"`, `"QWEN_THEN_GPT"`; when the coordinator
invocation fails, or its output — stripped and uppercased — is not one of
those labels, the result is the fallback `"GPT"`; when the normalized output
is one of the labels, that label is the result. -/
theorem C1_determine_model_strategy (outcome : CallResult) :
    DualModel.determine_model_strategy outcome ∈
      (["QWEN", "GPT", "BOTH", "QWEN_THEN_GPT"] : List String) ∧
    (∀ e, outcome = Except.error e →
      DualModel.determine_model_strategy outcome = "GPT") ∧
    (∀ raw, outcome = Except.ok raw →
      (pyUpper (pyStrip raw) ∉ (["QWEN", "GPT", "BOTH", "QWEN_THEN_GPT"] : List String) →
        DualModel.determine_model_strategy outcome = "GPT") ∧
      (pyUpper (pyStrip raw) ∈ (["QWEN", "GPT", "BOTH", "QWEN_THEN_GPT"] : List String) →
        DualModel.determine_model_strategy outcome = pyUpper (pyStrip raw))) := by
  refine ⟨determine_mem_strategyLabels outcome, ?_, ?_⟩
  · rintro e rfl
    rfl
  · rintro raw rfl
    constructor
    · intro h
      simp [DualModel.determine_model_strategy, DualModel.strategyLabels, h]
    · intro h
      simp [DualModel.determine_model_strategy, DualModel.strategyLabels, h]

/-- Witness for C1: the unrecognized coordinator output `" maybe "` falls back
to `"GPT"`. -/
theorem C1_determine_model_strategy_witness :
    pyUpper (pyStrip " maybe ") ∉
      (["QWEN", "GPT", "BOTH", "QWEN_THEN_GPT"] : List String) ∧
    DualModel.determine_model_strategy (Except.ok " maybe ") = "GPT" :=
  ⟨by decide,
   ((C1_determine_model_strategy (Except.ok " maybe ")).2.2 " maybe " rfl).1 (by decide)⟩

/-- Claim C2: on combiner failure, `combine_responses` returns exactly the
literal fallback template, Qwen label first. -/
theorem C2_combine_fallback (question context responseA responseB e : String) :
    DualModel.combine_responses question context responseA responseB
        (Except.error e) =
      "**Combined Response:**\n\n**Qwen3-VL:** " ++ responseA ++
        "\n\n**GPT-OSS:** " ++ responseB := rfl

/-- Claim C8: the search wrappers always return a string; on success the raw
result, on failure the fixed-format fallback of each variant. -/
theorem C8_search_fallback :
    (∀ r, DualModel.search_with_error_handling (Except.ok r) = r ∧
          Advanced.search_with_error_handling (Except.ok r) = r) ∧
    (∀ e, DualModel.search_with_error_handling (Except.error e) =
            "Search unavailable: " ++ e ++ ". Using model knowledge only." ∧
          Advanced.search_with_error_handling (Except.error e) =
            "Search unavailable: " ++ e ++ ". Using general knowledge only.") :=
  ⟨fun _ => ⟨rfl, rfl⟩, fun _ => ⟨rfl, rfl⟩⟩

/-- Claim C9: `save_conversation` leaves the in-memory session state exactly
as it was, for every write outcome; on a write failure nothing is written and
only an error message is reported. -/
theorem C9_save_preserves_state (s : DualModel.AssistantState) (h : List String)
    (now filename : String) :
    (∀ o, (DualModel.save_conversation s now filename o).1 = s ∧
          (Advanced.save_conversation h now filename o).1 = h) ∧
    (∀ e, (DualModel.save_conversation s now filename
            (DualModel.WriteOutcome.failure e)).2.1 = none ∧
          (DualModel.save_conversation s now filename
            (DualModel.WriteOutcome.failure e)).2.2 =
            "❌ Could not save conversation: " ++ e ∧
          (Advanced.save_conversation h now filename
            (DualModel.WriteOutcome.failure e)).2.1 = none ∧
          (Advanced.save_conversation h now filename
            (DualModel.WriteOutcome.failure e)).2.2 =
            "❌ Could not save conversation: " ++ e) := by
  refine ⟨fun o => ?_, fun e => ⟨rfl, rfl, rfl, rfl⟩⟩
  cases o <;> exact ⟨rfl, rfl⟩

/-- Claim C3: under strategy `"QWEN_THEN_GPT"`, the context the second (GPT)
invocation receives is exactly
`"Previous analysis: " ++ responseA ++ "\n\nOriginal context: " ++ context`. -/
theorem C3_refined_context (o : DualModel.ModelOracle) (question : String)
    (h : DualModel.determine_model_strategy o.coordinatorOutcome = "QWEN_THEN_GPT") :
    (DualModel.process_question o question).2 =
      [DualModel.ModelCall.qwenCall question
        (DualModel.search_with_error_handling o.searchOutcome),
       DualModel.ModelCall.gptCall question
        ("Previous analysis: " ++
          DualModel.get_qwen_response (o.qwenOutcome question
            (DualModel.search_with_error_handling o.searchOutcome)) ++
          "\n\nOriginal context: " ++
          DualModel.search_with_error_handling o.searchOutcome)] := by
  simp [DualModel.process_question, h]

/-- Witness for C3: a stub oracle whose coordinator answers
`"QWEN_THEN_GPT"`. -/
theorem C3_refined_context_witness :
    (DualModel.process_question
      { searchOutcome := Except.ok "ctx"
        coordinatorOutcome := Except.ok "QWEN_THEN_GPT"
        qwenOutcome := fun _ _ => Except.ok "qres"
        gptOutcome := fun _ _ => Except.ok "gres"
        combinerOutcome := Except.ok "cres" } "q").2 =
      [DualModel.ModelCall.qwenCall "q" "ctx",
       DualModel.ModelCall.gptCall "q"
        "Previous analysis: qres\n\nOriginal context: ctx"] :=
  C3_refined_context
    { searchOutcome := Except.ok "ctx"
      coordinatorOutcome := Except.ok "QWEN_THEN_GPT"
      qwenOutcome := fun _ _ => Except.ok "qres"
      gptOutcome := fun _ _ => Except.ok "gres"
      combinerOutcome := Except.ok "cres" } "q" (by decide)

/-- Claim C10: whatever the coordinator outcome, the `if`/`elif` chain of
`process_question` matches one branch, and the result is defined and of the
form `model_info ++ "\n\n" ++ response`. -/
theorem C10_process_question_total (o : DualModel.ModelOracle) (question : String) :
    ∃ model_info response,
      (DualModel.process_question o question).1 =
        some (model_info ++ "\n\n" ++ response) ∧
      model_info ∈ (["**Model Used:** Qwen3-VL", "**Model Used:** GPT-OSS",
        "**Models Used:** Qwen3-VL + GPT-OSS (Combined)",
        "**Models Used:** Qwen3-VL → GPT-OSS (Sequential)"] : List String) := by
  have hmem := determine_mem_strategyLabels o.coordinatorOutcome
  simp only [DualModel.strategyLabels, List.mem_cons, List.mem_singleton,
    List.not_mem_nil, or_false] at hmem
  rcases hmem with h | h | h | h
  · exact ⟨"**Model Used:** Qwen3-VL",
      DualModel.get_qwen_response (o.qwenOutcome question
        (DualModel.search_with_error_handling o.searchOutcome)),
      by simp [DualModel.process_question, h], by simp⟩
  · exact ⟨"**Model Used:** GPT-OSS",
      DualModel.get_gpt_response (o.gptOutcome question
        (DualModel.search_with_error_handling o.searchOutcome)),
      by simp [DualModel.process_question, h], by simp⟩
  · exact ⟨"**Models Used:** Qwen3-VL + GPT-OSS (Combined)",
      DualModel.combine_responses question
        (DualModel.search_with_error_handling o.searchOutcome)
        (DualModel.get_qwen_response (o.qwenOutcome question
          (DualModel.search_with_error_handling o.searchOutcome)))
        (DualModel.get_gpt_response (o.gptOutcome question
          (DualModel.search_with_error_handling o.searchOutcome)))
        o.combinerOutcome,
      by simp [DualModel.process_question, h], by simp⟩
  · exact ⟨"**Models Used:** Qwen3-VL → GPT-OSS (Sequential)",
      DualModel.get_gpt_response (o.gptOutcome question
        ("Previous analysis: " ++
          DualModel.get_qwen_response (o.qwenOutcome question
            (DualModel.search_with_error_handling o.searchOutcome)) ++
          "\n\nOriginal context: " ++
          DualModel.search_with_error_handling o.searchOutcome)),
      by simp [DualModel.process_question, h], by simp⟩

/-- Claim C4: replaying any sequence of `add_to_history` operations from the
empty history, the state after each operation (the replay of the
corresponding prefix) is exactly the most recent 20 entries of everything
appended so far — FIFO keep-last-20 — and in particular never holds more
than 20 entries. Holds for both variants. -/
theorem C4_history_cap (ops : List Exchange) :
    DualModel.run_history ops = keepLast 20 (DualModel.full_log ops) ∧
    (DualModel.run_history ops).length ≤ 20 ∧
    Advanced.run_history ops = keepLast 20 (Advanced.full_log ops) ∧
    (Advanced.run_history ops).length ≤ 20 := by
  refine ⟨dual_run_history_eq ops, ?_, adv_run_history_eq ops, ?_⟩
  · rw [dual_run_history_eq ops]
    exact keepLast_length_le 20 _
  · rw [adv_run_history_eq ops]
    exact keepLast_length_le 20 _

set_option maxRecDepth 10000 in
/-- Counterexample to claim C5. Dual-model variant: the answer `"hi"` is well
within the 300-character budget, yet the stored entry is `"[12:00] hi..."` —
the ellipsis marker is appended even though no truncation occurred, so the
answer is not stored unmodified. Advanced variant: a 250-character answer is
stored entirely unmodified — no record-time truncation to a 200-character
budget happens at all. -/
theorem C5_counterexample :
    ("hi" : String).length ≤ 300 ∧
    (DualModel.add_to_history [] "12:00" "q" "hi")[1]? = some "[12:00] hi..." ∧
    ("[12:00] hi..." : String) ≠ "[12:00] " ++ "hi" ∧
    200 < longAnswer.length ∧
    Advanced.add_to_history [] "12:00" "q" longAnswer =
      ["[12:00] q", "[12:00] " ++ longAnswer] := by
  refine ⟨by decide, by decide, by decide, ?_, ?_⟩
  · decide
  · decide

/-- Claim C5 as amended: the dual-model `add_to_history` stores
`answer[:300]` with `"..."` appended unconditionally — also when the answer
is within the 300-character budget — while the advanced `add_to_history`
stores the answer entirely unmodified (its 200-character ellipsis truncation
happens only at display time, in `format_history`); both then keep the last
20 entries. -/
theorem C5_amended_record (h : List String) (t q a : String) :
    DualModel.add_to_history h t q a =
      keepLast 20 (h ++ ["[" ++ t ++ "] " ++ q,
        "[" ++ t ++ "] " ++ (pyTake a 300 ++ "...")]) ∧
    Advanced.add_to_history h t q a =
      keepLast 20 (h ++ ["[" ++ t ++ "] " ++ q, "[" ++ t ++ "] " ++ a]) :=
  ⟨dual_add_eq_keepLast h t q a, adv_add_eq_keepLast h t q a⟩

/-- Claim C6: `format_history` returns the sentinel
`"No previous conversation."` exactly on the empty history. -/
theorem C6_format_history_empty_iff (h : List String) :
    Advanced.format_history h = "No previous conversation." ↔ h = [] := by
  constructor
  · intro hEq
    by_contra hne
    rw [Advanced.format_history, if_neg hne] at hEq
    exact joinSep_formatPairs_ne _ hEq
  · rintro rfl
    rfl

/-- Witness for C6 at the empty history. -/
theorem C6_format_history_empty_iff_witness :
    Advanced.format_history [] = "No previous conversation." :=
  (C6_format_history_empty_iff []).mpr rfl

/-- Claim C7: on a non-empty reachable history, `format_history` renders the
last `min 3 (number of stored pairs)` question/answer entry pairs, each as
`"Q: " ++ questionEntry ++ "\nA: " ++ answerEntry[:200] ++ "..."`, joined by
blank lines; the 200-character display cap applies to the stored answer entry
whatever its length. -/
theorem C7_format_history_renders (h : List String)
    (hr : Advanced.Reachable h) (hne : h ≠ []) :
    ∃ ps : List (String × String), h = Advanced.flattenPairs ps ∧ ps ≠ [] ∧
      Advanced.format_history h =
        joinSep "\n\n" ((keepLast 3 ps).map
          (fun p => "Q: " ++ p.1 ++ "\nA: " ++ pyTake p.2 200 ++ "...")) := by
  obtain ⟨ps, rfl⟩ := reachable_flattenPairs hr
  refine ⟨ps, rfl, ?_, ?_⟩
  · rintro rfl
    exact hne rfl
  · rw [Advanced.format_history, if_neg hne]
    show joinSep "\n\n"
      (Advanced.formatPairs (keepLast 6 (Advanced.flattenPairs ps))) = _
    rw [show (6 : Nat) = 2 * 3 from rfl, keepLast_flattenPairs,
      formatPairs_flattenPairs]

/-- Witness for C7 on the reachable one-exchange history. -/
theorem C7_format_history_renders_witness :
    ∃ ps : List (String × String),
      Advanced.add_to_history [] "10:00" "q1" "a1" = Advanced.flattenPairs ps ∧
      ps ≠ [] ∧
      Advanced.format_history (Advanced.add_to_history [] "10:00" "q1" "a1") =
        joinSep "\n\n" ((keepLast 3 ps).map
          (fun p => "Q: " ++ p.1 ++ "\nA: " ++ pyTake p.2 200 ++ "...")) :=
  C7_format_history_renders _
    (Advanced.Reachable.record [] "10:00" "q1" "a1" Advanced.Reachable.init)
    (by decide)

end RagAssistant
